import Mathlib

/-!
Verification development for the invoice auditor pipeline
(source: src/invoice_auditor.py).

The Python source is shallowly embedded here:
pure string transforms become Lean functions on `List Char`,
Python regular-expression substitutions become dedicated left-to-right
scanners with the same leftmost, non-overlapping semantics as `re.sub`,
Python floats become `Rat`, and code that can raise becomes
`Except`-valued functions.  The Python whitespace class is approximated
by its ASCII members, which is exact for every input considered here.
-/

namespace InvoiceAuditor

/-- ASCII approximation of the Python regex class backslash-s and of the
default character set of `str.strip`. -/
def isPySpace (c : Char) : Bool :=
  c = ' ' || c = '\t' || c = '\n' || c = '\r' || c = '\x0b' || c = '\x0c'

/-- The character class `[а-яА-ЯЁё]` of the source (Cyrillic letters). -/
def isCyr (c : Char) : Bool :=
  ('а' ≤ c && c ≤ 'я') || ('А' ≤ c && c ≤ 'Я') || c = 'Ё' || c = 'ё'

/-- The punctuation class `[,.;:]` of the source. -/
def isPunct (c : Char) : Bool :=
  c = ',' || c = '.' || c = ';' || c = ':'

/-- Generic engine for one `re.sub` pass.  `step prev cs` decides whether a
match starts exactly at the head of `cs` (with `prev` the original character
just before that position, for look-behind); on a match it returns the
replacement text, the last original character consumed, and the remaining
input after the match.  Scanning is leftmost and non-overlapping, and
replacements are never rescanned, exactly as in Python `re.sub`.
Every step used in this file consumes at least one character on a match,
so a fuel of `cs.length` always suffices. -/
def scanSub (step : Option Char → List Char → Option (List Char × Option Char × List Char)) :
    Nat → Option Char → List Char → List Char
  | 0, _, cs => cs
  | fuel + 1, prev, cs =>
    match step prev cs with
    | some (rep, p2, rest) => rep ++ scanSub step fuel p2 rest
    | none =>
      match cs with
      | [] => []
      | c :: rest => c :: scanSub step fuel (some c) rest

/-- Run one substitution pass over a whole character list. -/
def runSub (step : Option Char → List Char → Option (List Char × Option Char × List Char))
    (cs : List Char) : List Char :=
  scanSub step cs.length none cs

/-- Match for the pattern `([а-яА-ЯЁё])\s+([а-яА-ЯЁё])` with replacement
`\1\2` (collapse a whitespace run between two Cyrillic letters). -/
def stepCyr (_ : Option Char) (cs : List Char) :
    Option (List Char × Option Char × List Char) :=
  match cs with
  | c :: rest =>
    if isCyr c then
      let ws := rest.takeWhile isPySpace
      if ws.isEmpty then none
      else
        match rest.drop ws.length with
        | d :: rest2 => if isCyr d then some ([c, d], some d, rest2) else none
        | [] => none
    else none
  | [] => none

/-- Match for the pattern `\s+([,.;:])` with replacement `\1`
(drop whitespace before punctuation). -/
def stepPunct (_ : Option Char) (cs : List Char) :
    Option (List Char × Option Char × List Char) :=
  let ws := cs.takeWhile isPySpace
  if ws.isEmpty then none
  else
    match cs.drop ws.length with
    | p :: rest => if isPunct p then some ([p], some p, rest) else none
    | [] => none

/-- Match for the pattern `(?<![0-9])о т(?![0-9])` with replacement `от`:
the literal `о т` not preceded and not followed by a digit. -/
def stepOT (prev : Option Char) (cs : List Char) :
    Option (List Char × Option Char × List Char) :=
  match cs with
  | 'о' :: ' ' :: 'т' :: rest =>
    let prevOk := match prev with
      | some p => !p.isDigit
      | none => true
    let nextOk := match rest with
      | n :: _ => !n.isDigit
      | [] => true
    if prevOk && nextOk then some (['о', 'т'], some 'т', rest) else none
  | _ => none

/-- Match for a plain literal pattern with a literal replacement. -/
def stepLit (pat rep : List Char) (_ : Option Char) (cs : List Char) :
    Option (List Char × Option Char × List Char) :=
  if !pat.isEmpty && pat.isPrefixOf cs then
    some (rep, pat.getLast?, cs.drop pat.length)
  else none

/-- Match for the pattern `  +` with replacement a single space
(collapse runs of two or more literal spaces). -/
def stepDoubleSpace (_ : Option Char) (cs : List Char) :
    Option (List Char × Option Char × List Char) :=
  let run := cs.takeWhile (fun c => c = ' ')
  if run.length ≥ 2 then some ([' '], some ' ', cs.drop run.length) else none

/-- Python `str.strip()` (ASCII whitespace approximation). -/
def pyStrip (cs : List Char) : List Char :=
  ((cs.dropWhile isPySpace).reverse.dropWhile isPySpace).reverse

/-- Embedding of `TextCleaner.clean_pdf_text` (source lines 194-212):
the nine substitution passes in source order, then `strip`. -/
def clean_pdf_text (text : String) : String :=
  let t1 := runSub stepCyr text.data
  let t2 := runSub stepPunct t1
  let t3 := runSub stepOT t2
  let t4 := runSub (stepLit "р уб".data "руб".data) t3
  let t5 := runSub (stepLit "э лектр".data "электр".data) t4
  let t6 := runSub (stepLit "э нерг".data "энерг".data) t5
  let t7 := runSub (stepLit "сч ё т".data "счёт".data) t6
  let t8 := runSub (stepLit "о снаб".data "оснаб".data) t7
  let t9 := runSub stepDoubleSpace t8
  String.mk (pyStrip t9)

/-! ## JSON values and the strict parser (embedding of `json.loads`) -/

/-- Python values produced by `json.loads`.  Objects keep insertion order,
later duplicate keys overwrite in place (Python `dict` semantics).
Numbers are modelled as rationals; the non-finite literals accepted by
Python (NaN, Infinity) are out of scope and treated as parse errors. -/
inductive JsonValue where
  | null
  | bool (b : Bool)
  | num (q : Rat)
  | str (s : String)
  | arr (xs : List JsonValue)
  | obj (kvs : List (String × JsonValue))

/-- Is this value the JSON null? -/
def JsonValue.isNull : JsonValue → Bool
  | .null => true
  | _ => false

/-- Python truthiness of a JSON-decoded value. -/
def pyTruthy : JsonValue → Bool
  | .null => false
  | .bool b => b
  | .num q => q ≠ 0
  | .str s => !s.isEmpty
  | .arr xs => !xs.isEmpty
  | .obj kvs => !kvs.isEmpty

/-- Whitespace accepted by the JSON grammar (narrower than regex
backslash-s). -/
def isJsonWs (c : Char) : Bool :=
  c = ' ' || c = '\t' || c = '\n' || c = '\r'

/-- Skip JSON whitespace. -/
def skipJWs (cs : List Char) : List Char := cs.dropWhile isJsonWs

/-- Insert a key into an object, overwriting a duplicate in place
(Python dict assignment). -/
def objInsert (kvs : List (String × JsonValue)) (k : String) (v : JsonValue) :
    List (String × JsonValue) :=
  if kvs.any (fun kv => kv.1 == k) then
    kvs.map (fun kv => if kv.1 == k then (k, v) else kv)
  else kvs ++ [(k, v)]

/-- Fold decimal digits to a natural number. -/
def digitsToNat (ds : List Char) : Nat :=
  ds.foldl (fun a c => a * 10 + (c.toNat - 48)) 0

/-- Parse the body of a JSON string after the opening quote.  Strict mode:
unescaped control characters are an error, as in Python `json.loads`. -/
def parseJString : List Char → Except String (List Char × List Char)
  | [] => .error "Unterminated string"
  | '"' :: rest => .ok ([], rest)
  | '\\' :: '"' :: rest =>
    match parseJString rest with
    | .ok (s, r) => .ok ('"' :: s, r)
    | .error e => .error e
  | '\\' :: '\\' :: rest =>
    match parseJString rest with
    | .ok (s, r) => .ok ('\\' :: s, r)
    | .error e => .error e
  | '\\' :: '/' :: rest =>
    match parseJString rest with
    | .ok (s, r) => .ok ('/' :: s, r)
    | .error e => .error e
  | '\\' :: 'b' :: rest =>
    match parseJString rest with
    | .ok (s, r) => .ok ('\x08' :: s, r)
    | .error e => .error e
  | '\\' :: 'f' :: rest =>
    match parseJString rest with
    | .ok (s, r) => .ok ('\x0c' :: s, r)
    | .error e => .error e
  | '\\' :: 'n' :: rest =>
    match parseJString rest with
    | .ok (s, r) => .ok ('\n' :: s, r)
    | .error e => .error e
  | '\\' :: 'r' :: rest =>
    match parseJString rest with
    | .ok (s, r) => .ok ('\r' :: s, r)
    | .error e => .error e
  | '\\' :: 't' :: rest =>
    match parseJString rest with
    | .ok (s, r) => .ok ('\t' :: s, r)
    | .error e => .error e
  | '\\' :: 'u' :: h1 :: h2 :: h3 :: h4 :: rest =>
    let isHex : Char → Bool := fun c =>
      c.isDigit || ('a' ≤ c && c ≤ 'f') || ('A' ≤ c && c ≤ 'F')
    if isHex h1 && isHex h2 && isHex h3 && isHex h4 then
      let hv : Char → Nat := fun c =>
        if c.isDigit then c.toNat - 48
        else if 'a' ≤ c && c ≤ 'f' then c.toNat - 87
        else c.toNat - 55
      let n := ((hv h1 * 16 + hv h2) * 16 + hv h3) * 16 + hv h4
      if h : n.isValidChar then
        match parseJString rest with
        | .ok (s, r) => .ok (Char.ofNatAux n h :: s, r)
        | .error e => .error e
      else .error "Invalid unicode escape"
    else .error "Invalid unicode escape"
  | '\\' :: _ => .error "Invalid backslash escape"
  | c :: rest =>
    if c.toNat < 32 then .error "Invalid control character"
    else
      match parseJString rest with
      | .ok (s, r) => .ok (c :: s, r)
      | .error e => .error e

/-- Parse a JSON number at the head of the input, following the JSON
number grammar (optional minus, `0` or a nonzero-led digit run, optional
fraction, optional exponent); anything not fitting the grammar is left
unconsumed, as with the number regex of the Python scanner. -/
def parseJNumber (cs : List Char) : Except String (Rat × List Char) :=
  let neg : Bool := cs.head? = some '-'
  let cs1 : List Char := if neg then cs.drop 1 else cs
  let ipOpt : Option (List Char × List Char) :=
    match cs1 with
    | '0' :: r => some (['0'], r)
    | c :: _ =>
      if c.isDigit && c ≠ '0' then
        some (cs1.takeWhile Char.isDigit, cs1.dropWhile Char.isDigit)
      else none
    | [] => none
  match ipOpt with
  | none => .error "Expecting value"
  | some (ip, r1) =>
    let (fracDigits, r2) :=
      match r1 with
      | '.' :: d :: _ =>
        if d.isDigit then
          ((r1.drop 1).takeWhile Char.isDigit, (r1.drop 1).dropWhile Char.isDigit)
        else ([], r1)
      | _ => ([], r1)
    let (expVal, r3) :=
      match r2 with
      | e :: r2a =>
        if e = 'e' || e = 'E' then
          let (esign, r2b) :=
            match r2a with
            | '-' :: rb => ((-1 : Int), rb)
            | '+' :: rb => ((1 : Int), rb)
            | _ => ((1 : Int), r2a)
          match r2b with
          | d :: _ =>
            if d.isDigit then
              (some (esign * (digitsToNat (r2b.takeWhile Char.isDigit) : Int)),
               r2b.dropWhile Char.isDigit)
            else (none, r2)
          | [] => (none, r2)
        else (none, r2)
      | [] => (none, r2)
    let base : Rat :=
      (digitsToNat ip : Rat) + (digitsToNat fracDigits : Rat) / ((10 : Rat) ^ fracDigits.length)
    let scaled : Rat :=
      match expVal with
      | none => base
      | some e => if e ≥ 0 then base * (10 : Rat) ^ e.toNat else base / (10 : Rat) ^ (-e).toNat
    .ok (if neg then -scaled else scaled, r3)

mutual

/-- Parse one JSON value at the head of the (already whitespace-trimmed)
input. -/
def parseJValue : Nat → List Char → Except String (JsonValue × List Char)
  | 0, _ => .error "Out of fuel"
  | fuel + 1, cs =>
    match cs with
    | [] => .error "Expecting value"
    | c :: r =>
      if c = '\x7b' then
        match skipJWs r with
        | '\x7d' :: r2 => .ok (.obj [], r2)
        | r2 =>
          match parseJMembers fuel r2 [] with
          | .ok (kvs, r3) => .ok (.obj kvs, r3)
          | .error e => .error e
      else if c = '[' then
        match skipJWs r with
        | ']' :: r2 => .ok (.arr [], r2)
        | r2 =>
          match parseJItems fuel r2 [] with
          | .ok (xs, r3) => .ok (.arr xs, r3)
          | .error e => .error e
      else if c = '"' then
        match parseJString r with
        | .ok (s, r2) => .ok (.str (String.mk s), r2)
        | .error e => .error e
      else if c = 't' then
        if ['r', 'u', 'e'].isPrefixOf r then .ok (.bool true, r.drop 3)
        else .error "Expecting value"
      else if c = 'f' then
        if ['a', 'l', 's', 'e'].isPrefixOf r then .ok (.bool false, r.drop 4)
        else .error "Expecting value"
      else if c = 'n' then
        if ['u', 'l', 'l'].isPrefixOf r then .ok (.null, r.drop 3)
        else .error "Expecting value"
      else if c = '-' || c.isDigit then
        match parseJNumber cs with
        | .ok (q, r2) => .ok (.num q, r2)
        | .error e => .error e
      else .error "Expecting value"

/-- Parse the members of a JSON object after the opening brace, at the
position of a key. -/
def parseJMembers : Nat → List Char → List (String × JsonValue) →
    Except String (List (String × JsonValue) × List Char)
  | 0, _, _ => .error "Out of fuel"
  | fuel + 1, cs, acc =>
    match cs with
    | '"' :: r =>
      match parseJString r with
      | .error e => .error e
      | .ok (k, r2) =>
        match skipJWs r2 with
        | ':' :: r3 =>
          match parseJValue fuel (skipJWs r3) with
          | .error e => .error e
          | .ok (v, r4) =>
            let acc2 := objInsert acc (String.mk k) v
            match skipJWs r4 with
            | ',' :: r5 => parseJMembers fuel (skipJWs r5) acc2
            | '\x7d' :: r5 => .ok (acc2, r5)
            | _ => .error "Expecting delimiter"
        | _ => .error "Expecting colon delimiter"
    | _ => .error "Expecting property name enclosed in double quotes"

/-- Parse the items of a JSON array after the opening bracket, at the
position of a value. -/
def parseJItems : Nat → List Char → List JsonValue →
    Except String (List JsonValue × List Char)
  | 0, _, _ => .error "Out of fuel"
  | fuel + 1, cs, acc =>
    match parseJValue fuel cs with
    | .error e => .error e
    | .ok (v, r) =>
      match skipJWs r with
      | ',' :: r2 => parseJItems fuel (skipJWs r2) (acc ++ [v])
      | ']' :: r2 => .ok (acc ++ [v], r2)
      | _ => .error "Expecting delimiter"

end

/-- Embedding of Python `json.loads` on a string: parse one value,
then require only whitespace to remain (else the Extra-data error). -/
def json_loads (s : String) : Except String JsonValue :=
  match parseJValue (2 * s.length + 4) (skipJWs s.data) with
  | .error e => .error e
  | .ok (v, rest) =>
    if (skipJWs rest).isEmpty then .ok v else .error "Extra data"

/-- Is an `Except` value a success? -/
def exceptIsOk {ε α : Type} : Except ε α → Bool
  | .ok _ => true
  | .error _ => false

/-! ## Tier 0: `extract_json_from_text` (source lines 361-389) -/

/-- The backtick character. -/
def btick : Char := Char.ofNat 96

/-- Left and right curly brace characters (written via escapes). -/
def lbrace : Char := '\x7b'

/-- The right curly brace character. -/
def rbrace : Char := '\x7d'

/-- Match for the fence pattern (three backticks, an optional literal
`json`, then a greedy whitespace run), removed entirely. -/
def stepFence (_ : Option Char) (cs : List Char) :
    Option (List Char × Option Char × List Char) :=
  match cs with
  | c1 :: c2 :: c3 :: rest =>
    if c1 = btick && c2 = btick && c3 = btick then
      let rest2 := if ['j', 's', 'o', 'n'].isPrefixOf rest then rest.drop 4 else rest
      let rest3 := rest2.drop (rest2.takeWhile isPySpace).length
      some ([], some btick, rest3)
    else none
  | _ => none

/-- Match for the pattern quote, `\s*:\s*`, quote, `([^"]*)\n([^"]*)`,
quote — an embedded newline inside a quoted value directly after a colon —
replaced by `": "` then the two groups joined with one space.  The first
group is greedy, so it runs up to the last newline before the closing
quote. -/
def stepColonNl (_ : Option Char) (cs : List Char) :
    Option (List Char × Option Char × List Char) :=
  match cs with
  | '"' :: r1 =>
    let r1b := r1.drop (r1.takeWhile isPySpace).length
    match r1b with
    | ':' :: r2 =>
      let r2b := r2.drop (r2.takeWhile isPySpace).length
      match r2b with
      | '"' :: r3 =>
        let run := r3.takeWhile (fun c => c ≠ '"')
        match r3.drop run.length with
        | '"' :: r4 =>
          if run.contains '\n' then
            let g2 := (run.reverse.takeWhile (fun c => c ≠ '\n')).reverse
            let g1 := run.take (run.length - g2.length - 1)
            some (['"', ':', ' ', '"'] ++ g1 ++ [' '] ++ g2 ++ ['"'], some '"', r4)
          else none
        | _ => none
      | _ => none
    | _ => none
  | _ => none

/-- Match for the pattern `,\s*\n\s*` (a comma whose following whitespace
run contains a newline), replaced by a comma and one space. -/
def stepCommaNl (_ : Option Char) (cs : List Char) :
    Option (List Char × Option Char × List Char) :=
  match cs with
  | ',' :: r =>
    let ws := r.takeWhile isPySpace
    if ws.contains '\n' then
      some ([',', ' '], ws.getLast?, r.drop ws.length)
    else none
  | _ => none

/-- Match for the opening-brace variant of the newline collapse. -/
def stepBraceNl (_ : Option Char) (cs : List Char) :
    Option (List Char × Option Char × List Char) :=
  match cs with
  | c :: r =>
    if c = lbrace then
      let ws := r.takeWhile isPySpace
      if ws.contains '\n' then
        some ([lbrace, ' '], ws.getLast?, r.drop ws.length)
      else none
    else none
  | [] => none

/-- Match for the pattern `\s*\n\s*` directly before a closing brace,
replaced by one space and the brace. -/
def stepNlBrace (_ : Option Char) (cs : List Char) :
    Option (List Char × Option Char × List Char) :=
  let ws := cs.takeWhile isPySpace
  if ws.contains '\n' then
    match cs.drop ws.length with
    | c :: rest => if c = rbrace then some ([' ', rbrace], some rbrace, rest) else none
    | [] => none
  else none

/-- Match for the pattern `\s+`, replaced by a single space. -/
def stepWsRun (_ : Option Char) (cs : List Char) :
    Option (List Char × Option Char × List Char) :=
  let ws := cs.takeWhile isPySpace
  if ws.isEmpty then none
  else some ([' '], ws.getLast?, cs.drop ws.length)

/-- The whitespace collapsing applied inside the brace-delimited candidate
(source lines 375-385), in source order. -/
def collapseCandidate (cs : List Char) : List Char :=
  runSub stepWsRun (runSub stepNlBrace (runSub stepBraceNl (runSub stepCommaNl (runSub stepColonNl cs))))

/-- String wrapper of `collapseCandidate`, for stating what the
specification asks of the no-brace branch. -/
def collapse_candidate_ws (s : String) : String :=
  String.mk (collapseCandidate s.data)

/-- First index of a character in a list. -/
def firstIdxOf (cs : List Char) (c : Char) : Option Nat :=
  cs.findIdx? (fun d => d = c)

/-- Last index of a character in a list (Python `str.rfind`). -/
def lastIdxOf (cs : List Char) (c : Char) : Option Nat :=
  match cs.reverse.findIdx? (fun d => d = c) with
  | some k => some (cs.length - 1 - k)
  | none => none

/-- The brace-delimited slice `text[start_idx : end_idx + 1]` when
`start_idx >= 0 and end_idx > start_idx`, else none. -/
def braceSlice? (cs : List Char) : Option (List Char) :=
  match firstIdxOf cs lbrace, lastIdxOf cs rbrace with
  | some i, some j => if i < j then some ((cs.take (j + 1)).drop i) else none
  | _, _ => none

/-- Embedding of `InvoiceAuditor.extract_json_from_text`
(source lines 361-389): strip fenced markers, trim, locate the brace
span; when found, collapse whitespace inside it; otherwise return the
trimmed text unchanged. -/
def extract_json_from_text (text : String) : String :=
  let t := pyStrip (runSub stepFence text.data)
  match braceSlice? t with
  | some cand => String.mk (collapseCandidate cand)
  | none => String.mk t

/-! ## Tiers 2 and 3 of `parse_json_robust` (source lines 391-455) -/

/-- Match for the pattern `,\s*` directly before a given closing
character, replaced by that character alone (trailing-comma removal). -/
def stepTrailComma (close : Char) (_ : Option Char) (cs : List Char) :
    Option (List Char × Option Char × List Char) :=
  match cs with
  | ',' :: r =>
    let ws := r.takeWhile isPySpace
    match r.drop ws.length with
    | c :: rest => if c = close then some ([close], some close, rest) else none
    | [] => none
  | _ => none

/-- The apostrophe character. -/
def apos : Char := Char.ofNat 39

/-- The Tier-2 repair of the candidate (source lines 406-410): remove
trailing commas before closing braces and brackets, then turn single
quotes into double quotes. -/
def tier2_repair (s : String) : String :=
  let t1 := runSub (stepTrailComma rbrace) s.data
  let t2 := runSub (stepTrailComma ']') t1
  String.mk (t2.map (fun c => if c = apos then '"' else c))

/-- Try to match `"key"\s*:\s*` at the head of the input; on success
return the input positioned at the value. -/
def matchKeyAt (key : List Char) (cs : List Char) : Option (List Char) :=
  match cs with
  | '"' :: r =>
    if key.isPrefixOf r then
      match r.drop key.length with
      | '"' :: r2 =>
        let r3 := r2.drop (r2.takeWhile isPySpace).length
        match r3 with
        | ':' :: r4 => some (r4.drop ((r4.takeWhile isPySpace).length))
        | _ => none
      | _ => none
    else none
  | _ => none

/-- `re.search` over all start positions with a head matcher. -/
def reSearch {α : Type} (m : List Char → Option α) : List Char → Option α
  | [] => m []
  | c :: rest =>
    match m (c :: rest) with
    | some a => some a
    | none => reSearch m rest

/-- Head matcher for `"key"\s*:\s*"([^"]*)"`: group 1 is the quoted
value. -/
def matchQuotedValue (key : List Char) (cs : List Char) : Option (List Char) :=
  match matchKeyAt key cs with
  | some r =>
    match r with
    | '"' :: r2 =>
      let run := r2.takeWhile (fun c => c ≠ '"')
      match r2.drop run.length with
      | '"' :: _ => some run
      | _ => none
    | _ => none
  | none => none

/-- Head matcher for `"key"\s*:\s*([0-9.]+)`: group 1 is the digit-dot
run. -/
def matchNumericValue (key : List Char) (cs : List Char) : Option (List Char) :=
  match matchKeyAt key cs with
  | some r =>
    let run := r.takeWhile (fun c => c.isDigit || c = '.')
    if run.isEmpty then none else some run
  | none => none

/-- Head matcher for the nullable pattern, quoted value or literal
`null`; `some none` records a matched `null` (group 1 absent). -/
def matchNullableValue (key : List Char) (cs : List Char) :
    Option (Option (List Char)) :=
  match matchKeyAt key cs with
  | some r =>
    match r with
    | '"' :: r2 =>
      let run := r2.takeWhile (fun c => c ≠ '"')
      match r2.drop run.length with
      | '"' :: _ => some (some run)
      | _ => none
    | _ => if ['n', 'u', 'l', 'l'].isPrefixOf r then some none else none
  | none => none

/-- Python `float` on a Tier-3 numeric group (alphabet `[0-9.]`): valid
iff it has at least one digit and at most one dot. -/
def pyFloatOfRun (run : List Char) : Option Rat :=
  if run.any Char.isDigit && (run.filter (fun c => c = '.')).length ≤ 1 then
    let ip := run.takeWhile (fun c => c ≠ '.')
    let frac := (run.drop ip.length).drop 1
    some ((digitsToNat ip : Rat) + (digitsToNat frac : Rat) / ((10 : Rat) ^ frac.length))
  else none

/-- Tier-3 value for a plain string field: the first regex match, with an
empty group treated as unset (Python truthiness of the group). -/
def tier3StrField (key : String) (cs : List Char) : JsonValue :=
  match reSearch (matchQuotedValue key.data) cs with
  | some run => if run.isEmpty then .null else .str (String.mk run)
  | none => .null

/-- Tier-3 value for a numeric field: the first regex match converted by
`float`, unset when the conversion fails. -/
def tier3NumField (key : String) (cs : List Char) : JsonValue :=
  match reSearch (matchNumericValue key.data) cs with
  | some run =>
    match pyFloatOfRun run with
    | some q => .num q
    | none => .null
  | none => .null

/-- Tier-3 value for a nullable field: quoted value, or unset on a
matched `null` or an empty group. -/
def tier3NullableField (key : String) (cs : List Char) : JsonValue :=
  match reSearch (matchNullableValue key.data) cs with
  | some (some run) => if run.isEmpty then .null else .str (String.mk run)
  | some none => .null
  | none => .null

/-- The ten InvoiceRecord keys, in the insertion order of the source
result dictionary. -/
def tenKeys : List String :=
  ["invoice_number", "date", "supplier", "buyer", "amount", "vat",
   "vat_rate", "contract_number", "payment_date", "meter_number"]

/-- Tier-3 field-level regex salvage (source lines 417-455): build the
ten-key result dictionary, populating each field from its own pattern. -/
def tier3_salvage (cs : List Char) : List (String × JsonValue) :=
  [("invoice_number", tier3StrField "invoice_number" cs),
   ("date", tier3StrField "date" cs),
   ("supplier", tier3StrField "supplier" cs),
   ("buyer", tier3StrField "buyer" cs),
   ("amount", tier3NumField "amount" cs),
   ("vat", tier3NumField "vat" cs),
   ("vat_rate", tier3NumField "vat_rate" cs),
   ("contract_number", tier3NullableField "contract_number" cs),
   ("payment_date", tier3NullableField "payment_date" cs),
   ("meter_number", tier3NullableField "meter_number" cs)]

/-- Embedding of `InvoiceAuditor.parse_json_robust`
(source lines 391-455).  The codomain keeps the possibility of an escaped
exception visible; the theorems show it never occurs.  Note that the
source rebinds `json_str` during the Tier-2 repair before the second
parse attempt, so Tier 3 searches the repaired string. -/
def parse_json_robust (text : String) : Except String JsonValue :=
  let json_str := extract_json_from_text text
  match json_loads json_str with
  | .ok v => .ok v
  | .error _ =>
    let json_str2 := tier2_repair json_str
    match json_loads json_str2 with
    | .ok v => .ok v
    | .error _ => .ok (.obj (tier3_salvage json_str2.data))

/-- Does a decoded value have a given object key? -/
def jsonHasKey (v : JsonValue) (k : String) : Bool :=
  match v with
  | .obj kvs => kvs.any (fun kv => kv.1 == k)
  | _ => false

/-! ## `validate_result` (source lines 457-475) -/

/-- An observation printed by the validator: a missing required field, or
the VAT cross-check mismatch (carrying the reported and expected
values). -/
inductive Warning where
  | missingField (name : String)
  | vatMismatch (vat expected : Rat)

/-- Is a warning the VAT mismatch observation? -/
def Warning.isVatMismatch : Warning → Bool
  | .vatMismatch _ _ => true
  | _ => false

/-- Python `dict.get` with a default. -/
def dictGet (d : List (String × JsonValue)) (k : String) (dflt : JsonValue) : JsonValue :=
  match d.find? (fun kv => kv.1 == k) with
  | some kv => kv.2
  | none => dflt

/-- Python `k in dict`. -/
def dictHas (d : List (String × JsonValue)) (k : String) : Bool :=
  (d.find? (fun kv => kv.1 == k)).isSome

/-- The required-field list of the source. -/
def required_fields : List String :=
  ["invoice_number", "date", "supplier", "buyer", "amount", "vat"]

/-- The numeric value of a decoded entry where Python arithmetic would
accept it: numbers themselves, and booleans as 0 or 1.  Strings, lists,
objects and null have no numeric value and make the Python arithmetic
raise a TypeError. -/
def asRat? : JsonValue → Option Rat
  | .num q => some q
  | .bool b => some (if b then 1 else 0)
  | _ => none

/-- Round half to even at the integer position. -/
def roundHalfEven (x : Rat) : Int :=
  let f : Int := ⌊x⌋
  let r : Rat := x - (f : Rat)
  if r < 1 / 2 then f
  else if r > 1 / 2 then f + 1
  else if f % 2 = 0 then f else f + 1

/-- Python `round(x, 2)` modelled exactly on rationals (the binary
floating-point representation error of the source is out of scope). -/
def round2 (x : Rat) : Rat :=
  (roundHalfEven (x * 100) : Rat) / 100

/-- The required-field presence loop of the validator (source lines
460-463): one observation per required field that is absent or None. -/
def missingFieldWarnings (data : List (String × JsonValue)) : List Warning :=
  required_fields.filterMap (fun f =>
    if !dictHas data f || (dictGet data f .null).isNull then
      some (.missingField f)
    else none)

/-- Embedding of `InvoiceAuditor.validate_result` (source lines
457-475).  The returned pair is the record handed back unchanged plus the
list of printed observations; the error case records the TypeError that
Python would raise when the three checked entries are truthy but one of
them is not a number. -/
def validate_result (data : List (String × JsonValue)) :
    Except String (List (String × JsonValue) × List Warning) :=
  let fieldWarnings := missingFieldWarnings data
  let amount := dictGet data "amount" (.num 0)
  let vat := dictGet data "vat" (.num 0)
  let vat_rate := dictGet data "vat_rate" (.num 0)
  if pyTruthy amount && pyTruthy vat && pyTruthy vat_rate then
    match asRat? amount, asRat? vat, asRat? vat_rate with
    | some a, some v, some r =>
      let expected_vat := round2 (a * r / 100)
      if |v - expected_vat| > 1 / 100 then
        .ok (data, fieldWarnings ++ [.vatMismatch v expected_vat])
      else
        .ok (data, fieldWarnings)
    | _, _, _ => .error "TypeError: unsupported operand type"
  else
    .ok (data, fieldWarnings)

/-- The InvoiceRecord shape constraint on a decoded dictionary: the three
entries entering the arithmetic cross-check are numbers (or booleans) or
null; absent entries default to a number. -/
def numOrNull (v : JsonValue) : Bool :=
  v.isNull || (asRat? v).isSome

/-- A dictionary is InvoiceRecord-shaped when amount, vat and vat_rate
are numeric or unset. -/
def recordShaped (d : List (String × JsonValue)) : Bool :=
  numOrNull (dictGet d "amount" (.num 0)) &&
  numOrNull (dictGet d "vat" (.num 0)) &&
  numOrNull (dictGet d "vat_rate" (.num 0))

/-! ## `GigaChatAuth.token` (source lines 137-188) -/

/-- The credential state of `GigaChatAuth`: the stored token and its
expiry.  Time is modelled in minutes as an integer. -/
structure AuthState where
  token : Option String
  expires_at : Option Int

/-- A successful response of the credential exchange: the access token
and the optional explicit expiry. -/
structure FetchResponse where
  access_token : String
  expires_at : Option Int

/-- `Config.TOKEN_REFRESH_BUFFER_MINUTES`. -/
def bufferMinutes : Int := 5

/-- The default validity window assumed when the exchange response
carries no expiry (30 minutes). -/
def defaultValidityMinutes : Int := 30

/-- Embedding of `GigaChatAuth._fetch_token` (source lines 148-176) on a
successful exchange: store the fetched token, and the explicit expiry
when present, else now plus 30 minutes. -/
def fetch_token (now : Int) (resp : FetchResponse) (_s : AuthState) : AuthState :=
  { token := some resp.access_token,
    expires_at := some (resp.expires_at.getD (now + defaultValidityMinutes)) }

/-- Python truthiness of the stored token (`not self._token`). -/
def pyTruthyTok : Option String → Bool
  | none => false
  | some s => !s.isEmpty

/-- Embedding of the `GigaChatAuth.token` accessor (source lines
178-188): fetch when no token or no expiry is stored, or when now has
reached the stored expiry minus the safety buffer; then return the
stored token.  `resp` is what a fetch, if performed, would store. -/
def token (now : Int) (resp : FetchResponse) (s : AuthState) :
    AuthState × Option String :=
  let s2 :=
    if !pyTruthyTok s.token then fetch_token now resp s
    else
      match s.expires_at with
      | none => fetch_token now resp s
      | some e =>
        if now ≥ e - bufferMinutes then fetch_token now resp s else s
  (s2, s2.token)

/-! ## The retry loop of `InvoiceAuditor.audit` (source lines 491-551) -/

/-- The observable outcome of one HTTP attempt of the completion call. -/
inductive Outcome where
  | status401
  | timeout
  | httpError
  | connError
  | reply (text : String)

/-- The terminal result of the retry loop. -/
inductive AuditResult where
  | ok (record : List (String × JsonValue))
  | diagnostic (raw : String)
  | exhausted
  | raisedOther

/-- What one loop iteration decides: continue to the next attempt after
the given sleeps (optionally invalidating the credential), or stop with a
terminal result. -/
inductive StepAction where
  | cont (sleeps : List Nat) (invalidate : Bool)
  | stop (r : AuditResult)

/-- The reply check of source lines 524-526 plus the surrounding inner
`try`: a non-dictionary decoded value fails (falsy values at the `not
result` test, other values at the `.values()` attribute access), a
dictionary fails when empty or with all entries None; a TypeError raised
inside `validate_result` is caught by the same handler. -/
def attemptStep (o : Outcome) (isLast : Bool) : StepAction :=
  match o with
  | .status401 => .cont [] true
  | .timeout => .cont [2] false
  | .httpError => if isLast then .stop .raisedOther else .cont [1] false
  | .connError => if isLast then .stop .raisedOther else .cont [1] false
  | .reply t =>
    let failPath : StepAction :=
      if isLast then .stop (.diagnostic t) else .cont [1] false
    match parse_json_robust t with
    | .error _ => failPath
    | .ok v =>
      match v with
      | .obj kvs =>
        if kvs.isEmpty || kvs.all (fun kv => kv.2.isNull) then failPath
        else
          match validate_result kvs with
          | .ok (d, _) => .stop (.ok d)
          | .error _ => failPath
      | _ => failPath

/-- The trace of a full run of the retry loop: the terminal result, the
sleep durations in order, the number of HTTP requests issued, and the
number of credential invalidations. -/
structure LoopTrace where
  result : AuditResult
  sleeps : List Nat
  requests : Nat
  invalidations : Nat

/-- Driver of the bounded retry loop: `i` is the attempt index of
`for attempt in range(3)` and `remaining + 1` the attempts still allowed;
the current attempt is the last one exactly when `remaining = 0`.  When
the bound is exhausted the loop falls through to the final raise
(CompletionExhausted). -/
def audit_go (outcomes : Nat → Outcome) (i : Nat) :
    Nat → List Nat → Nat → Nat → LoopTrace
  | 0, sleeps, reqs, invs => ⟨.exhausted, sleeps, reqs, invs⟩
  | remaining + 1, sleeps, reqs, invs =>
    match attemptStep (outcomes i) (remaining == 0) with
    | .cont s inv =>
      audit_go outcomes (i + 1) remaining (sleeps ++ s) (reqs + 1)
        (invs + if inv then 1 else 0)
    | .stop r => ⟨r, sleeps, reqs + 1, invs⟩

/-- Embedding of the retry loop of `InvoiceAuditor.audit` (source lines
491-551), parameterised by the outcome of each attempt. -/
def audit_loop (outcomes : Nat → Outcome) : LoopTrace :=
  audit_go outcomes 0 3 [] 0 0

/-! ## Theorems -/

/-- Claim C1: for every input string, `parse_json_robust` returns a value
without raising: the Tier-1 and Tier-2 parse failures are caught
internally and the Tier-3 regex salvage always produces a result. -/
theorem c1_parse_json_robust_never_raises (s : String) :
    exceptIsOk (parse_json_robust s) = true := by
  cases hx : json_loads (extract_json_from_text s) with
  | ok v => simp [parse_json_robust, hx, exceptIsOk]
  | error e =>
    cases hy : json_loads (tier2_repair (extract_json_from_text s)) with
    | ok v => simp [parse_json_robust, hx, hy, exceptIsOk]
    | error e2 => simp [parse_json_robust, hx, hy, exceptIsOk]

/-- Claim C1, witness: the theorem applied at the empty string. -/
theorem c1_witness : exceptIsOk (parse_json_robust "") = true :=
  c1_parse_json_robust_never_raises ""

/-- Claim C2, counterexample: on input consisting of an empty brace pair,
Tier-1 strict parsing succeeds and the returned mapping is the empty
dictionary, which does not contain the key invoice_number (nor any of the
other nine keys), refuting the claim that the result always contains all
ten keys. -/
theorem c2_counterexample :
    parse_json_robust "\x7b\x7d" = .ok (.obj []) ∧
    jsonHasKey (.obj []) "invoice_number" = false :=
  ⟨rfl, rfl⟩

/-- Claim C2 (amended): when both the Tier-1 strict parse and the Tier-2
repaired parse fail, the result is the Tier-3 dictionary, which contains
exactly the ten InvoiceRecord keys; when an earlier tier succeeds, the
returned value is whatever was parsed and need not contain the ten
keys. -/
theorem c2_amended (s : String)
    (h1 : exceptIsOk (json_loads (extract_json_from_text s)) = false)
    (h2 : exceptIsOk (json_loads (tier2_repair (extract_json_from_text s))) = false) :
    ∃ kvs, parse_json_robust s = .ok (.obj kvs) ∧ kvs.map Prod.fst = tenKeys := by
  cases hx : json_loads (extract_json_from_text s) with
  | ok v => simp [exceptIsOk, hx] at h1
  | error e =>
    cases hy : json_loads (tier2_repair (extract_json_from_text s)) with
    | ok v => simp [exceptIsOk, hy] at h2
    | error e2 =>
      refine ⟨tier3_salvage (tier2_repair (extract_json_from_text s)).data, ?_, rfl⟩
      simp [parse_json_robust, hx, hy]

/-- Claim C2 (amended), witness: on the empty string both parse tiers
fail and the result carries all ten keys. -/
theorem c2_amended_witness :
    exceptIsOk (json_loads (extract_json_from_text "")) = false ∧
    exceptIsOk (json_loads (tier2_repair (extract_json_from_text ""))) = false ∧
    ∃ kvs, parse_json_robust "" = .ok (.obj kvs) ∧ kvs.map Prod.fst = tenKeys :=
  ⟨rfl, rfl, c2_amended "" rfl rfl⟩

/-- Claim C3: the text normalizer is not idempotent; the code contradicts
the required property.  On the three Cyrillic letters separated by single
spaces, the non-overlapping first substitution collapses only the first
gap, and a second application collapses the remaining one, so applying
the cleaner twice differs from applying it once. -/
theorem c3_clean_pdf_text_not_idempotent :
    clean_pdf_text "а б в" = "аб в" ∧
    clean_pdf_text (clean_pdf_text "а б в") = "абв" ∧
    ("абв" : String) ≠ "аб в" :=
  ⟨by decide, by decide, by decide⟩

/-- Claim C5, counterexample: on a run whose attempts all time out, the
sleep schedule is two seconds after every timeout, so the wait after the
first timeout is 2 seconds and not the claimed 1 second. -/
theorem c5_counterexample :
    (audit_loop (fun _ => .timeout)).sleeps = [2, 2, 2] ∧
    (audit_loop (fun _ => .timeout)).sleeps.head? = some 2 ∧
    (2 : Nat) ≠ 1 :=
  ⟨rfl, rfl, by decide⟩

/-- Claim C5 (amended): every request timeout, on any attempt, is
followed by a fixed 2-second wait before the next step; the backoff is
constant, not linear 1s-then-2s. -/
theorem c5_amended :
    attemptStep .timeout false = .cont [2] false ∧
    attemptStep .timeout true = .cont [2] false :=
  ⟨rfl, rfl⟩

/-- Claim C6: when every attempt ends in a request timeout, exactly 3
requests are made and the loop terminates with the CompletionExhausted
failure, returning no record. -/
theorem c6_timeout_exhaustion (outcomes : Nat → Outcome)
    (h : ∀ i, outcomes i = .timeout) :
    audit_loop outcomes = ⟨.exhausted, [2, 2, 2], 3, 0⟩ := by
  simp [audit_loop, audit_go, attemptStep, h]

/-- Claim C6, witness: the theorem applied to the all-timeouts run. -/
theorem c6_witness :
    audit_loop (fun _ => .timeout) = ⟨.exhausted, [2, 2, 2], 3, 0⟩ :=
  c6_timeout_exhaustion (fun _ => .timeout) (fun _ => rfl)

/-- Claim C7, counterexample: on an input with no brace pair the
candidate is returned without any whitespace collapsing; applying the
brace-case collapsing (as the claim demands) would give a different
string. -/
theorem c7_counterexample :
    extract_json_from_text "x\ny" = "x\ny" ∧
    collapse_candidate_ws "x\ny" = "x y" ∧
    extract_json_from_text "x\ny" ≠ collapse_candidate_ws "x\ny" :=
  ⟨rfl, rfl, by decide⟩

/-- Claim C7 (amended): when the fence-stripped, trimmed text has no
brace pair, it is returned unchanged as the candidate; the
newline/whitespace collapsing happens only in the brace-delimited
case. -/
theorem c7_amended (s : String)
    (h : braceSlice? (pyStrip (runSub stepFence s.data)) = none) :
    extract_json_from_text s = String.mk (pyStrip (runSub stepFence s.data)) := by
  simp [extract_json_from_text, h]

/-- Claim C7 (amended), witness: the theorem applied at the braceless
two-line input. -/
theorem c7_amended_witness :
    braceSlice? (pyStrip (runSub stepFence "x\ny".data)) = none ∧
    extract_json_from_text "x\ny" = String.mk (pyStrip (runSub stepFence "x\ny".data)) :=
  ⟨rfl, c7_amended "x\ny" rfl⟩

/-- Claim C4, counterexample: when attempt 1 returns 401 and every later
attempt times out, the run exhausts after 3 requests in total — the 401
consumed one of the bounded attempts, so only two timeouts (two 2-second
waits) were possible afterwards, not the claimed three. -/
theorem c4_counterexample :
    (audit_loop (fun i => if i = 0 then .status401 else .timeout)).result = .exhausted ∧
    (audit_loop (fun i => if i = 0 then .status401 else .timeout)).sleeps = [2, 2] ∧
    (audit_loop (fun i => if i = 0 then .status401 else .timeout)).requests = 3 ∧
    (audit_loop (fun i => if i = 0 then .status401 else .timeout)).requests ≠ 4 :=
  ⟨rfl, rfl, rfl, by decide⟩

/-- Claim C4 (amended): a 401 invalidates the credential and retries
immediately with no sleep, but it does consume one of the 3 bounded
attempts: after a 401 on attempt 1 followed by timeouts, the loop
exhausts after only two further attempts. -/
theorem c4_amended (outcomes : Nat → Outcome)
    (h0 : outcomes 0 = .status401)
    (h : ∀ i, i ≠ 0 → outcomes i = .timeout) :
    attemptStep .status401 false = .cont [] true ∧
    audit_loop outcomes = ⟨.exhausted, [2, 2], 3, 1⟩ := by
  have h1 := h 1 (by decide)
  have h2 := h 2 (by decide)
  exact ⟨rfl, by simp [audit_loop, audit_go, attemptStep, h0, h1, h2]⟩

/-- Claim C4 (amended), witness: the theorem applied to the
401-then-timeouts run. -/
theorem c4_amended_witness :
    attemptStep .status401 false = .cont [] true ∧
    audit_loop (fun i => if i = 0 then .status401 else .timeout) =
      ⟨.exhausted, [2, 2], 3, 1⟩ :=
  c4_amended (fun i => if i = 0 then .status401 else .timeout)
    (if_pos rfl) (fun _ hi => if_neg hi)

/-- A truthy value that is numeric-or-null is numeric. -/
theorem truthy_numOrNull_isSome (v : JsonValue)
    (ht : pyTruthy v = true) (hn : numOrNull v = true) : (asRat? v).isSome = true := by
  cases v <;> simp_all [pyTruthy, numOrNull, asRat?, JsonValue.isNull]

/-- Claim C8: on every InvoiceRecord-shaped mapping (the three checked
entries numeric or unset) the validator raises nothing and returns
exactly the input record; the VAT cross-check can only add a warning to
the observation list, never change the record or the success. -/
theorem c8_validate_result_ok (d : List (String × JsonValue))
    (h : recordShaped d = true) :
    ∃ ws, validate_result d = .ok (d, ws) := by
  by_cases hcond : (pyTruthy (dictGet d "amount" (.num 0)) &&
      pyTruthy (dictGet d "vat" (.num 0)) &&
      pyTruthy (dictGet d "vat_rate" (.num 0))) = true
  · simp only [recordShaped, Bool.and_eq_true] at h
    obtain ⟨⟨hna, hnv⟩, hnr⟩ := h
    simp only [Bool.and_eq_true] at hcond
    obtain ⟨⟨hta, htv⟩, htr2⟩ := hcond
    obtain ⟨qa, hqa⟩ := Option.isSome_iff_exists.mp (truthy_numOrNull_isSome _ hta hna)
    obtain ⟨qv, hqv⟩ := Option.isSome_iff_exists.mp (truthy_numOrNull_isSome _ htv hnv)
    obtain ⟨qr, hqr⟩ := Option.isSome_iff_exists.mp (truthy_numOrNull_isSome _ htr2 hnr)
    have hval : validate_result d =
        if |qv - round2 (qa * qr / 100)| > 1 / 100 then
          .ok (d, missingFieldWarnings d ++ [.vatMismatch qv (round2 (qa * qr / 100))])
        else .ok (d, missingFieldWarnings d) := by
      simp [validate_result, hta, htv, htr2, hqa, hqv, hqr]
    by_cases hm : |qv - round2 (qa * qr / 100)| > 1 / 100
    · exact ⟨_, by rw [hval, if_pos hm]⟩
    · exact ⟨_, by rw [hval, if_neg hm]⟩
  · rw [Bool.not_eq_true] at hcond
    exact ⟨missingFieldWarnings d, by simp [validate_result, hcond]⟩

/-- Claim C8, witness: the theorem applied at a record with a VAT
mismatch; the record is still returned unchanged. -/
theorem c8_witness :
    recordShaped [("amount", .num 100), ("vat", .num 25), ("vat_rate", .num 20)] = true ∧
    ∃ ws, validate_result [("amount", .num 100), ("vat", .num 25), ("vat_rate", .num 20)] =
      .ok ([("amount", .num 100), ("vat", .num 25), ("vat_rate", .num 20)], ws) :=
  ⟨rfl, c8_validate_result_ok _ rfl⟩

/-- Claim C9, counterexample: with no stored token, the accessor performs
a fresh fetch, but when the exchange response carries an expiry equal to
the current time the stored expiry minus the 5-minute buffer is not in
the future, refuting the claimed validity of the returned token. -/
theorem c9_counterexample :
    token 100 ⟨"tok", some 100⟩ ⟨none, none⟩ =
      (⟨some "tok", some 100⟩, some "tok") ∧
    ¬ ((100 : Int) < 100 - bufferMinutes) :=
  ⟨rfl, by decide⟩

/-- Claim C9 (amended): the accessor fetches whenever no valid credential
is stored, and the returned expiry minus the 5-minute buffer is strictly
in the future whenever the fetch response carries no explicit expiry (the
30-minute default window applies, or no fetch was needed); an explicit
response expiry is stored as-is and may already lie inside the buffer. -/
theorem c9_amended (now : Int) (resp : FetchResponse) (s : AuthState)
    (hresp : resp.expires_at = none) :
    ∃ e, ((token now resp s).1).expires_at = some e ∧ now < e - bufferMinutes := by
  by_cases ht : pyTruthyTok s.token = true
  · cases hs : s.expires_at with
    | none =>
      refine ⟨now + defaultValidityMinutes, ?_, ?_⟩
      · simp [token, fetch_token, ht, hs, hresp]
      · simp only [bufferMinutes, defaultValidityMinutes]; omega
    | some e =>
      by_cases hc : now ≥ e - bufferMinutes
      · refine ⟨now + defaultValidityMinutes, ?_, ?_⟩
        · simp [token, fetch_token, ht, hs, hc, hresp]
        · simp only [bufferMinutes, defaultValidityMinutes]; omega
      · exact ⟨e, by simp [token, ht, hs, hc], lt_of_not_ge hc⟩
  · rw [Bool.not_eq_true] at ht
    refine ⟨now + defaultValidityMinutes, ?_, ?_⟩
    · simp [token, fetch_token, ht, hresp]
    · simp only [bufferMinutes, defaultValidityMinutes]; omega

/-- Claim C9 (amended), witness: the theorem applied to an empty state
with a default-expiry fetch. -/
theorem c9_amended_witness :
    (⟨"tok", none⟩ : FetchResponse).expires_at = none ∧
    ∃ e, ((token 0 ⟨"tok", none⟩ ⟨none, none⟩).1).expires_at = some e ∧
      (0 : Int) < e - bufferMinutes :=
  ⟨rfl, c9_amended 0 ⟨"tok", none⟩ ⟨none, none⟩ rfl⟩

/-- Claim C10: the VAT arithmetic cross-check runs only when amount, vat
and vat_rate are all truthy; when one of them is the number 0 the check
is skipped, the record is returned as-is and no mismatch observation can
appear. -/
theorem c10_zero_skips_vat_check (d : List (String × JsonValue))
    (h : dictGet d "amount" (.num 0) = .num 0 ∨
         dictGet d "vat" (.num 0) = .num 0 ∨
         dictGet d "vat_rate" (.num 0) = .num 0) :
    ∃ ws, validate_result d = .ok (d, ws) ∧
      ∀ w ∈ ws, w.isVatMismatch = false := by
  have hz : pyTruthy (JsonValue.num 0) = false := by
    simp [pyTruthy]
  have hcond : (pyTruthy (dictGet d "amount" (.num 0)) &&
      pyTruthy (dictGet d "vat" (.num 0)) &&
      pyTruthy (dictGet d "vat_rate" (.num 0))) = false := by
    rcases h with h | h | h <;> rw [h] <;> simp [hz]
  refine ⟨missingFieldWarnings d, by simp [validate_result, hcond], ?_⟩
  intro w hw
  simp only [missingFieldWarnings, List.mem_filterMap] at hw
  obtain ⟨f, _, hf⟩ := hw
  by_cases hcase : (!dictHas d f || (dictGet d f .null).isNull) = true
  · rw [if_pos hcase] at hf
    cases hf
    rfl
  · rw [if_neg hcase] at hf
    cases hf

/-- Claim C10, witness: the theorem applied to a record whose vat_rate is
present but zero; even though the stored vat would mismatch any
expectation, no mismatch observation is emitted. -/
theorem c10_witness :
    (dictGet [("amount", JsonValue.num 100), ("vat", JsonValue.num 25),
        ("vat_rate", JsonValue.num 0)] "amount" (.num 0) = .num 0 ∨
     dictGet [("amount", JsonValue.num 100), ("vat", JsonValue.num 25),
        ("vat_rate", JsonValue.num 0)] "vat" (.num 0) = .num 0 ∨
     dictGet [("amount", JsonValue.num 100), ("vat", JsonValue.num 25),
        ("vat_rate", JsonValue.num 0)] "vat_rate" (.num 0) = .num 0) ∧
    ∃ ws, validate_result [("amount", JsonValue.num 100), ("vat", JsonValue.num 25),
        ("vat_rate", JsonValue.num 0)] =
      .ok ([("amount", JsonValue.num 100), ("vat", JsonValue.num 25),
        ("vat_rate", JsonValue.num 0)], ws) ∧
      ∀ w ∈ ws, w.isVatMismatch = false :=
  ⟨Or.inr (Or.inr rfl), c10_zero_skips_vat_check _ (Or.inr (Or.inr rfl))⟩

end InvoiceAuditor
